import Mathlib

/-!
Verification of the symbol-visibility configuration layer of
`zig-jxl-jpegli`: the three pre-generated export headers
`src/jxl_export.h`, `src/jxl_cms_export.h` and
`src/jxl/jxl_threads_export.h`.

Each header is a one-shot preprocessor decision procedure: given the
ambient compile-time flags it binds a family of visibility tokens for
its module.  We embed the preprocessor shallowly: the ambient flags are
a record of booleans (`Defines`, presence/absence of each object-like
flag), the per-module macro table is a record of optional token lists
(`ModuleEnv`, `none` = the name is not defined in the translation unit),
and each header file becomes a Lean function from the ambient flags and
the macro table to the updated macro table, together with a boolean
reporting whether any token-redefinition diagnostic fired (a `#define`
of a name already bound to a different body).
-/

/-- The attribute fragments that can appear in a macro expansion in
these headers. -/
inductive Tok where
  /-- `__declspec(dllexport)` -/
  | dllexport
  /-- `__declspec(dllimport)` -/
  | dllimport
  /-- `__attribute__((visibility("default")))` -/
  | visDefault
  /-- `__attribute__((visibility("hidden")))` -/
  | visHidden
  /-- `__attribute__ ((__deprecated__))` -/
  | gnuDeprecated
  /-- `__declspec(deprecated)` -/
  | mscDeprecated
  deriving DecidableEq, Fintype, Repr

/-- The ambient compile-time configuration consumed by the headers:
presence (`true`) or absence (`false`) of each flag.
`WIN32` stands for `_WIN32`, `GNUC` for `__GNUC__`, `MSC_VER` for
`_MSC_VER`; the remaining fields carry their source names. -/
structure Defines where
  JXL_STATIC_DEFINE : Bool
  WIN32 : Bool
  GNUC : Bool
  MSC_VER : Bool
  JXL_INTERNAL_LIBRARY_BUILD : Bool
  JXL_CMS_INTERNAL_LIBRARY_BUILD : Bool
  JXL_THREADS_INTERNAL_LIBRARY_BUILD : Bool
  deriving DecidableEq, Repr

/-- The macro bindings one export header manages for its module.
`guardDefined` is the include-guard marker (`JXL_EXPORT_H`,
`JXL_CMS_EXPORT_H`, `JXL_THREADS_EXPORT_H`); the other fields are the
five visibility tokens, `none` when the name is not defined.  The
record is prefix-agnostic: the module prefix only renames the macro
namespace. -/
structure ModuleEnv where
  guardDefined : Bool
  exportTok : Option (List Tok)
  noExportTok : Option (List Tok)
  deprecatedTok : Option (List Tok)
  deprecatedExportTok : Option (List Tok)
  deprecatedNoExportTok : Option (List Tok)
  deriving DecidableEq, Repr

/-- A translation unit in which none of the module's macro names are
defined yet. -/
def emptyEnv : ModuleEnv :=
  { guardDefined := false
    exportTok := none
    noExportTok := none
    deprecatedTok := none
    deprecatedExportTok := none
    deprecatedNoExportTok := none }

/-- Whether a `#define` of a name currently bound to `old` with new body
`new` triggers a redefinition diagnostic: it does exactly when the name
was already defined with a different body. -/
def redefWarn (old : Option (List Tok)) (new : List Tok) : Bool :=
  match old with
  | none => false
  | some b => b ≠ new

/-- Shallow embedding of `src/jxl_export.h` acting on the `JXL_`-prefixed
macro table of a translation unit.  Returns the updated table and
whether any redefinition diagnostic fired. -/
def includeJxlExportH (d : Defines) (env : ModuleEnv) : ModuleEnv × Bool :=
  if env.guardDefined then (env, false)
  else
    let env1 := { env with guardDefined := true }
    let e : List Tok :=
      if d.JXL_STATIC_DEFINE then []
      else if d.WIN32 then
        if d.JXL_INTERNAL_LIBRARY_BUILD then [Tok.dllexport] else [Tok.dllimport]
      else
        if d.JXL_INTERNAL_LIBRARY_BUILD then [Tok.visDefault] else []
    let ne : List Tok :=
      if d.JXL_STATIC_DEFINE then [] else [Tok.visHidden]
    let w := redefWarn env1.exportTok e || redefWarn env1.noExportTok ne
    let env2 := { env1 with exportTok := some e, noExportTok := some ne }
    let dep : List Tok :=
      if d.GNUC then [Tok.gnuDeprecated]
      else if d.MSC_VER then [Tok.mscDeprecated]
      else []
    let env3 :=
      if env2.deprecatedTok.isSome then env2
      else { env2 with deprecatedTok := some dep }
    let env4 :=
      if env3.deprecatedExportTok.isSome then env3
      else { env3 with deprecatedExportTok := some (env3.exportTok.getD [] ++ env3.deprecatedTok.getD []) }
    let env5 :=
      if env4.deprecatedNoExportTok.isSome then env4
      else { env4 with deprecatedNoExportTok := some (env4.noExportTok.getD [] ++ env4.deprecatedTok.getD []) }
    (env5, w)

/-- Shallow embedding of `src/jxl_cms_export.h` acting on the
`JXL_CMS_`-prefixed macro table of a translation unit. -/
def includeJxlCmsExportH (d : Defines) (env : ModuleEnv) : ModuleEnv × Bool :=
  if env.guardDefined then (env, false)
  else
    let env1 := { env with guardDefined := true }
    let e : List Tok :=
      if d.JXL_STATIC_DEFINE then []
      else if d.WIN32 then
        if d.JXL_CMS_INTERNAL_LIBRARY_BUILD then [Tok.dllexport] else [Tok.dllimport]
      else
        if d.JXL_CMS_INTERNAL_LIBRARY_BUILD then [Tok.visDefault] else []
    let ne : List Tok :=
      if d.JXL_STATIC_DEFINE then [] else [Tok.visHidden]
    let w := redefWarn env1.exportTok e || redefWarn env1.noExportTok ne
    let env2 := { env1 with exportTok := some e, noExportTok := some ne }
    let dep : List Tok :=
      if d.GNUC then [Tok.gnuDeprecated]
      else if d.MSC_VER then [Tok.mscDeprecated]
      else []
    let env3 :=
      if env2.deprecatedTok.isSome then env2
      else { env2 with deprecatedTok := some dep }
    let env4 :=
      if env3.deprecatedExportTok.isSome then env3
      else { env3 with deprecatedExportTok := some (env3.exportTok.getD [] ++ env3.deprecatedTok.getD []) }
    let env5 :=
      if env4.deprecatedNoExportTok.isSome then env4
      else { env4 with deprecatedNoExportTok := some (env4.noExportTok.getD [] ++ env4.deprecatedTok.getD []) }
    (env5, w)

/-- Shallow embedding of `src/jxl/jxl_threads_export.h` acting on the
`JXL_THREADS_`-prefixed macro table of a translation unit. -/
def includeJxlThreadsExportH (d : Defines) (env : ModuleEnv) : ModuleEnv × Bool :=
  if env.guardDefined then (env, false)
  else
    let env1 := { env with guardDefined := true }
    let e : List Tok :=
      if d.JXL_STATIC_DEFINE then []
      else if d.WIN32 then
        if d.JXL_THREADS_INTERNAL_LIBRARY_BUILD then [Tok.dllexport] else [Tok.dllimport]
      else
        if d.JXL_THREADS_INTERNAL_LIBRARY_BUILD then [Tok.visDefault] else []
    let ne : List Tok :=
      if d.JXL_STATIC_DEFINE then [] else [Tok.visHidden]
    let w := redefWarn env1.exportTok e || redefWarn env1.noExportTok ne
    let env2 := { env1 with exportTok := some e, noExportTok := some ne }
    let dep : List Tok :=
      if d.GNUC then [Tok.gnuDeprecated]
      else if d.MSC_VER then [Tok.mscDeprecated]
      else []
    let env3 :=
      if env2.deprecatedTok.isSome then env2
      else { env2 with deprecatedTok := some dep }
    let env4 :=
      if env3.deprecatedExportTok.isSome then env3
      else { env3 with deprecatedExportTok := some (env3.exportTok.getD [] ++ env3.deprecatedTok.getD []) }
    let env5 :=
      if env4.deprecatedNoExportTok.isSome then env4
      else { env4 with deprecatedNoExportTok := some (env4.noExportTok.getD [] ++ env4.deprecatedTok.getD []) }
    (env5, w)

/-- The macro table a fresh translation unit ends up with after
including `src/jxl_export.h`. -/
def jxlFresh (d : Defines) : ModuleEnv := (includeJxlExportH d emptyEnv).1

/-- The macro table a fresh translation unit ends up with after
including `src/jxl_cms_export.h`. -/
def cmsFresh (d : Defines) : ModuleEnv := (includeJxlCmsExportH d emptyEnv).1

/-- The macro table a fresh translation unit ends up with after
including `src/jxl/jxl_threads_export.h`. -/
def threadsFresh (d : Defines) : ModuleEnv := (includeJxlThreadsExportH d emptyEnv).1

/-- Ambient configuration with every flag absent: shared build, platform
and compiler both unrecognized, external-consumer role everywhere. -/
def dAllAbsent : Defines :=
  { JXL_STATIC_DEFINE := false
    WIN32 := false
    GNUC := false
    MSC_VER := false
    JXL_INTERNAL_LIBRARY_BUILD := false
    JXL_CMS_INTERNAL_LIBRARY_BUILD := false
    JXL_THREADS_INTERNAL_LIBRARY_BUILD := false }

/-- Shared build on an unrecognized (non-Windows) platform while building
the libraries themselves (internal-build role for all three modules). -/
def dUnixInternal : Defines :=
  { JXL_STATIC_DEFINE := false
    WIN32 := false
    GNUC := false
    MSC_VER := false
    JXL_INTERNAL_LIBRARY_BUILD := true
    JXL_CMS_INTERNAL_LIBRARY_BUILD := true
    JXL_THREADS_INTERNAL_LIBRARY_BUILD := true }

/-- Static build with every other flag present. -/
def dStaticAll : Defines :=
  { JXL_STATIC_DEFINE := true
    WIN32 := true
    GNUC := true
    MSC_VER := true
    JXL_INTERNAL_LIBRARY_BUILD := true
    JXL_CMS_INTERNAL_LIBRARY_BUILD := true
    JXL_THREADS_INTERNAL_LIBRARY_BUILD := true }

/-- A translation unit that predeclared the deprecated token and both
composite tokens before ever including the resolver. -/
def envPredeprecated : ModuleEnv :=
  { guardDefined := false
    exportTok := none
    noExportTok := none
    deprecatedTok := some [Tok.mscDeprecated]
    deprecatedExportTok := some []
    deprecatedNoExportTok := some [Tok.visHidden] }

theorem includeJxlExportH_of_guard (d : Defines) (env : ModuleEnv)
    (h : env.guardDefined = true) : includeJxlExportH d env = (env, false) := by
  unfold includeJxlExportH
  simp [h]

theorem includeJxlCmsExportH_of_guard (d : Defines) (env : ModuleEnv)
    (h : env.guardDefined = true) : includeJxlCmsExportH d env = (env, false) := by
  unfold includeJxlCmsExportH
  simp [h]

theorem includeJxlThreadsExportH_of_guard (d : Defines) (env : ModuleEnv)
    (h : env.guardDefined = true) : includeJxlThreadsExportH d env = (env, false) := by
  unfold includeJxlThreadsExportH
  simp [h]

theorem includeJxlExportH_guard_after (d : Defines) (env : ModuleEnv) :
    ((includeJxlExportH d env).1).guardDefined = true := by
  rcases env with ⟨g, et, nt, dt, det, dnt⟩
  cases g
  · unfold includeJxlExportH
    cases dt <;> cases det <;> cases dnt <;> rfl
  · exact rfl

theorem includeJxlCmsExportH_guard_after (d : Defines) (env : ModuleEnv) :
    ((includeJxlCmsExportH d env).1).guardDefined = true := by
  rcases env with ⟨g, et, nt, dt, det, dnt⟩
  cases g
  · unfold includeJxlCmsExportH
    cases dt <;> cases det <;> cases dnt <;> rfl
  · exact rfl

theorem includeJxlThreadsExportH_guard_after (d : Defines) (env : ModuleEnv) :
    ((includeJxlThreadsExportH d env).1).guardDefined = true := by
  rcases env with ⟨g, et, nt, dt, det, dnt⟩
  cases g
  · unfold includeJxlThreadsExportH
    cases dt <;> cases det <;> cases dnt <;> rfl
  · exact rfl

/-- C1: under Build Mode = shared (`JXL_STATIC_DEFINE` absent), each
module's export token follows the decision table: on Windows-like
platforms it is `__declspec(dllexport)` when that module's
internal-build flag is defined and `__declspec(dllimport)` otherwise;
elsewhere it is the default-visibility attribute when the module's
internal-build flag is defined and nothing otherwise; and the hidden
token is the hidden-visibility attribute on both platforms regardless
of role. -/
theorem shared_mode_export_decision_table (d : Defines)
    (h : d.JXL_STATIC_DEFINE = false) :
    (jxlFresh d).exportTok =
      some (if d.WIN32 then
              if d.JXL_INTERNAL_LIBRARY_BUILD then [Tok.dllexport] else [Tok.dllimport]
            else
              if d.JXL_INTERNAL_LIBRARY_BUILD then [Tok.visDefault] else []) ∧
    (cmsFresh d).exportTok =
      some (if d.WIN32 then
              if d.JXL_CMS_INTERNAL_LIBRARY_BUILD then [Tok.dllexport] else [Tok.dllimport]
            else
              if d.JXL_CMS_INTERNAL_LIBRARY_BUILD then [Tok.visDefault] else []) ∧
    (threadsFresh d).exportTok =
      some (if d.WIN32 then
              if d.JXL_THREADS_INTERNAL_LIBRARY_BUILD then [Tok.dllexport] else [Tok.dllimport]
            else
              if d.JXL_THREADS_INTERNAL_LIBRARY_BUILD then [Tok.visDefault] else []) ∧
    (jxlFresh d).noExportTok = some [Tok.visHidden] ∧
    (cmsFresh d).noExportTok = some [Tok.visHidden] ∧
    (threadsFresh d).noExportTok = some [Tok.visHidden] := by
  rcases d with ⟨s, w, g, m, i1, i2, i3⟩
  revert h
  cases s <;> cases w <;> cases g <;> cases m <;> cases i1 <;> cases i2 <;> cases i3 <;> decide

/-- C1 witness: a concrete shared-mode Windows configuration building the
core and threading modules but consuming the color-management module. -/
theorem shared_mode_export_decision_table_witness :
    (jxlFresh ⟨false, true, false, false, true, false, true⟩).exportTok = some [Tok.dllexport] ∧
    (cmsFresh ⟨false, true, false, false, true, false, true⟩).exportTok = some [Tok.dllimport] ∧
    (threadsFresh ⟨false, true, false, false, true, false, true⟩).exportTok = some [Tok.dllexport] ∧
    (jxlFresh ⟨false, true, false, false, true, false, true⟩).noExportTok = some [Tok.visHidden] ∧
    (cmsFresh ⟨false, true, false, false, true, false, true⟩).noExportTok = some [Tok.visHidden] ∧
    (threadsFresh ⟨false, true, false, false, true, false, true⟩).noExportTok = some [Tok.visHidden] := by
  have h := shared_mode_export_decision_table ⟨false, true, false, false, true, false, true⟩ rfl
  exact ⟨h.1, h.2.1, h.2.2.1, h.2.2.2.1, h.2.2.2.2.1, h.2.2.2.2.2⟩

/-- C2: when `JXL_STATIC_DEFINE` is defined, the export token and the
hidden token of all three modules expand to nothing, whatever the
platform and role flags are. -/
theorem static_mode_tokens_empty (d : Defines)
    (h : d.JXL_STATIC_DEFINE = true) :
    (jxlFresh d).exportTok = some [] ∧ (jxlFresh d).noExportTok = some [] ∧
    (cmsFresh d).exportTok = some [] ∧ (cmsFresh d).noExportTok = some [] ∧
    (threadsFresh d).exportTok = some [] ∧ (threadsFresh d).noExportTok = some [] := by
  rcases d with ⟨s, w, g, m, i1, i2, i3⟩
  revert h
  cases s <;> cases w <;> cases g <;> cases m <;> cases i1 <;> cases i2 <;> cases i3 <;> decide

/-- C2 witness: the static flag together with every other flag present. -/
theorem static_mode_tokens_empty_witness :
    (jxlFresh dStaticAll).exportTok = some [] ∧ (jxlFresh dStaticAll).noExportTok = some [] ∧
    (cmsFresh dStaticAll).exportTok = some [] ∧ (cmsFresh dStaticAll).noExportTok = some [] ∧
    (threadsFresh dStaticAll).exportTok = some [] ∧
    (threadsFresh dStaticAll).noExportTok = some [] :=
  static_mode_tokens_empty dStaticAll rfl

/-- C3: the three resolvers are the same function up to the module
prefix: whenever the color-management (resp. threading) internal-build
flag agrees with the core one, including `jxl_cms_export.h`
(resp. `jxl_threads_export.h`) acts on a macro table exactly as
including `jxl_export.h` does, for every ambient configuration and
every starting table. -/
theorem resolvers_agree_up_to_prefix (d : Defines) (env : ModuleEnv)
    (h1 : d.JXL_CMS_INTERNAL_LIBRARY_BUILD = d.JXL_INTERNAL_LIBRARY_BUILD)
    (h2 : d.JXL_THREADS_INTERNAL_LIBRARY_BUILD = d.JXL_INTERNAL_LIBRARY_BUILD) :
    includeJxlCmsExportH d env = includeJxlExportH d env ∧
    includeJxlThreadsExportH d env = includeJxlExportH d env := by
  rcases d with ⟨s, w, g, m, i1, i2, i3⟩
  dsimp only at h1 h2
  subst h1
  subst h2
  exact ⟨rfl, rfl⟩

/-- C3 witness: all three internal-build flags absent. -/
theorem resolvers_agree_up_to_prefix_witness :
    includeJxlCmsExportH dAllAbsent emptyEnv = includeJxlExportH dAllAbsent emptyEnv ∧
    includeJxlThreadsExportH dAllAbsent emptyEnv = includeJxlExportH dAllAbsent emptyEnv :=
  resolvers_agree_up_to_prefix dAllAbsent emptyEnv rfl rfl

/-- C4: in every ambient configuration, the deprecated-and-exported
token of each module expands to exactly the module's export token
followed by its deprecated token, and the deprecated-and-hidden token
to exactly its hidden token followed by its deprecated token, with
nothing interposed. -/
theorem composite_tokens_concatenation (d : Defines) :
    (jxlFresh d).deprecatedExportTok =
      some ((jxlFresh d).exportTok.getD [] ++ (jxlFresh d).deprecatedTok.getD []) ∧
    (jxlFresh d).deprecatedNoExportTok =
      some ((jxlFresh d).noExportTok.getD [] ++ (jxlFresh d).deprecatedTok.getD []) ∧
    (cmsFresh d).deprecatedExportTok =
      some ((cmsFresh d).exportTok.getD [] ++ (cmsFresh d).deprecatedTok.getD []) ∧
    (cmsFresh d).deprecatedNoExportTok =
      some ((cmsFresh d).noExportTok.getD [] ++ (cmsFresh d).deprecatedTok.getD []) ∧
    (threadsFresh d).deprecatedExportTok =
      some ((threadsFresh d).exportTok.getD [] ++ (threadsFresh d).deprecatedTok.getD []) ∧
    (threadsFresh d).deprecatedNoExportTok =
      some ((threadsFresh d).noExportTok.getD [] ++ (threadsFresh d).deprecatedTok.getD []) := by
  rcases d with ⟨s, w, g, m, i1, i2, i3⟩
  cases s <;> cases w <;> cases g <;> cases m <;> cases i1 <;> cases i2 <;> cases i3 <;> decide

/-- C5: processing a module's resolver a second time within the same
translation unit is a no-op: the macro table is unchanged and no
redefinition diagnostic fires, for every ambient configuration and
every starting table. -/
theorem reinclusion_noop (d : Defines) (env : ModuleEnv) :
    includeJxlExportH d (includeJxlExportH d env).1 = ((includeJxlExportH d env).1, false) ∧
    includeJxlCmsExportH d (includeJxlCmsExportH d env).1 =
      ((includeJxlCmsExportH d env).1, false) ∧
    includeJxlThreadsExportH d (includeJxlThreadsExportH d env).1 =
      ((includeJxlThreadsExportH d env).1, false) :=
  ⟨includeJxlExportH_of_guard d _ (includeJxlExportH_guard_after d env),
   includeJxlCmsExportH_of_guard d _ (includeJxlCmsExportH_guard_after d env),
   includeJxlThreadsExportH_of_guard d _ (includeJxlThreadsExportH_guard_after d env)⟩

/-- C6: the deprecated token is determined solely by the two compiler
identification signals and is the same in every build mode, platform
and role: `__attribute__ ((__deprecated__))` when `__GNUC__` is
defined, else `__declspec(deprecated)` when `_MSC_VER` is defined,
else nothing. -/
theorem deprecated_token_compiler_table (d : Defines) :
    (jxlFresh d).deprecatedTok =
      some (if d.GNUC then [Tok.gnuDeprecated]
            else if d.MSC_VER then [Tok.mscDeprecated]
            else []) ∧
    (cmsFresh d).deprecatedTok =
      some (if d.GNUC then [Tok.gnuDeprecated]
            else if d.MSC_VER then [Tok.mscDeprecated]
            else []) ∧
    (threadsFresh d).deprecatedTok =
      some (if d.GNUC then [Tok.gnuDeprecated]
            else if d.MSC_VER then [Tok.mscDeprecated]
            else []) := by
  rcases d with ⟨s, w, g, m, i1, i2, i3⟩
  cases s <;> cases w <;> cases g <;> cases m <;> cases i1 <;> cases i2 <;> cases i3 <;> decide

/-- C7 counterexample: in a shared build on a platform where `_WIN32` is
absent (the claim's "unrecognized platform") with the internal-build
role, the export token expands to the default-visibility attribute,
not to the empty binding the claim requires. -/
theorem fail_open_counterexample :
    (jxlFresh dUnixInternal).exportTok = some [Tok.visDefault] ∧
    some [Tok.visDefault] ≠ some ([] : List Tok) := by
  decide

/-- C7 amended: when `_WIN32` is absent the export token of a module in
the external-consumer role is empty, and when neither compiler signal
is present the deprecated token is empty; resolution always yields a
binding rather than failing. -/
theorem fail_open_amended (d : Defines) :
    (d.WIN32 = false → d.JXL_INTERNAL_LIBRARY_BUILD = false →
      (jxlFresh d).exportTok = some []) ∧
    (d.WIN32 = false → d.JXL_CMS_INTERNAL_LIBRARY_BUILD = false →
      (cmsFresh d).exportTok = some []) ∧
    (d.WIN32 = false → d.JXL_THREADS_INTERNAL_LIBRARY_BUILD = false →
      (threadsFresh d).exportTok = some []) ∧
    (d.GNUC = false → d.MSC_VER = false →
      (jxlFresh d).deprecatedTok = some [] ∧
      (cmsFresh d).deprecatedTok = some [] ∧
      (threadsFresh d).deprecatedTok = some []) := by
  rcases d with ⟨s, w, g, m, i1, i2, i3⟩
  cases s <;> cases w <;> cases g <;> cases m <;> cases i1 <;> cases i2 <;> cases i3 <;>
    exact ⟨by decide, by decide, by decide, by decide⟩

/-- C7 amended witness: every signal absent, so both fallbacks fire. -/
theorem fail_open_amended_witness :
    (jxlFresh dAllAbsent).exportTok = some [] ∧
    (jxlFresh dAllAbsent).deprecatedTok = some [] :=
  ⟨(fail_open_amended dAllAbsent).1 rfl rfl,
   ((fail_open_amended dAllAbsent).2.2.2 rfl rfl).1⟩

/-- C8 counterexample: starting from a translation unit in which the
deprecated token is unbound, one inclusion of the core resolver binds
it — a fifth binding beyond the four the claim enumerates (the
include-guard marker is introduced as well). -/
theorem five_tokens_counterexample :
    emptyEnv.deprecatedTok = none ∧
    (jxlFresh dAllAbsent).deprecatedTok = some [] ∧
    (jxlFresh dAllAbsent).guardDefined = true := by
  decide

/-- C8 amended: one inclusion of a module's resolver in a fresh
translation unit defines exactly five macro tokens — export, hidden,
deprecated, deprecated-and-exported and deprecated-and-hidden — plus
the include-guard marker, and nothing else (the macro table has no
other components). -/
theorem five_tokens_amended (d : Defines) :
    (jxlFresh d).guardDefined = true ∧
    (jxlFresh d).exportTok.isSome = true ∧
    (jxlFresh d).noExportTok.isSome = true ∧
    (jxlFresh d).deprecatedTok.isSome = true ∧
    (jxlFresh d).deprecatedExportTok.isSome = true ∧
    (jxlFresh d).deprecatedNoExportTok.isSome = true ∧
    (cmsFresh d).guardDefined = true ∧
    (cmsFresh d).exportTok.isSome = true ∧
    (cmsFresh d).noExportTok.isSome = true ∧
    (cmsFresh d).deprecatedTok.isSome = true ∧
    (cmsFresh d).deprecatedExportTok.isSome = true ∧
    (cmsFresh d).deprecatedNoExportTok.isSome = true ∧
    (threadsFresh d).guardDefined = true ∧
    (threadsFresh d).exportTok.isSome = true ∧
    (threadsFresh d).noExportTok.isSome = true ∧
    (threadsFresh d).deprecatedTok.isSome = true ∧
    (threadsFresh d).deprecatedExportTok.isSome = true ∧
    (threadsFresh d).deprecatedNoExportTok.isSome = true := by
  rcases d with ⟨s, w, g, m, i1, i2, i3⟩
  cases s <;> cases w <;> cases g <;> cases m <;> cases i1 <;> cases i2 <;> cases i3 <;> decide

/-- C9: the static selector is the one shared flag `JXL_STATIC_DEFINE`:
a module's hidden token collapses to the empty expansion exactly when
that flag is set, so in every configuration either all three modules
take the static branch or none does. -/
theorem static_flag_shared_across_modules (d : Defines) :
    ((jxlFresh d).noExportTok = some [] ↔ d.JXL_STATIC_DEFINE = true) ∧
    ((cmsFresh d).noExportTok = some [] ↔ d.JXL_STATIC_DEFINE = true) ∧
    ((threadsFresh d).noExportTok = some [] ↔ d.JXL_STATIC_DEFINE = true) ∧
    ((jxlFresh d).noExportTok = some [] ↔ (cmsFresh d).noExportTok = some []) ∧
    ((jxlFresh d).noExportTok = some [] ↔ (threadsFresh d).noExportTok = some []) := by
  rcases d with ⟨s, w, g, m, i1, i2, i3⟩
  cases s <;> cases w <;> cases g <;> cases m <;> cases i1 <;> cases i2 <;> cases i3 <;> decide

/-- C10: on first inclusion (guard marker unset), a pre-existing binding
of the deprecated token or of either composite token is left
unchanged, while the export and hidden tokens are bound
unconditionally to the same values they receive in a fresh
translation unit. -/
theorem predefined_deprecated_preserved (d : Defines) (env : ModuleEnv)
    (hg : env.guardDefined = false) :
    (∀ b, env.deprecatedTok = some b →
      ((includeJxlExportH d env).1).deprecatedTok = some b) ∧
    (∀ b, env.deprecatedExportTok = some b →
      ((includeJxlExportH d env).1).deprecatedExportTok = some b) ∧
    (∀ b, env.deprecatedNoExportTok = some b →
      ((includeJxlExportH d env).1).deprecatedNoExportTok = some b) ∧
    ((includeJxlExportH d env).1).exportTok = (jxlFresh d).exportTok ∧
    ((includeJxlExportH d env).1).noExportTok = (jxlFresh d).noExportTok := by
  rcases env with ⟨g, et, nt, dt, det, dnt⟩
  dsimp only at hg
  subst hg
  simp only [jxlFresh, emptyEnv, includeJxlExportH]
  cases dt <;> cases det <;> cases dnt <;> simp

/-- C10 witness: a translation unit that predeclared the deprecated
token and both composite tokens keeps all three across inclusion,
while the export token is bound as in a fresh unit. -/
theorem predefined_deprecated_preserved_witness :
    ((includeJxlExportH dAllAbsent envPredeprecated).1).deprecatedTok =
      some [Tok.mscDeprecated] ∧
    ((includeJxlExportH dAllAbsent envPredeprecated).1).deprecatedExportTok = some [] ∧
    ((includeJxlExportH dAllAbsent envPredeprecated).1).deprecatedNoExportTok =
      some [Tok.visHidden] ∧
    ((includeJxlExportH dAllAbsent envPredeprecated).1).exportTok =
      (jxlFresh dAllAbsent).exportTok := by
  have h := predefined_deprecated_preserved dAllAbsent envPredeprecated rfl
  exact ⟨h.1 _ rfl, h.2.1 _ rfl, h.2.2.1 _ rfl, h.2.2.2.1⟩
